import Mathlib

/-!
Shallow embedding of the ROARVR camera/tracker fusion code
(`camera_d_t.py`, class `RS_D_T`) and of the Vive tracker UDP server
(`vive/vive_tracker_server.py`, class `ViveTrackerServer`).

Geometry is embedded over the real numbers; matrices are Mathlib
matrices.  External sensor reads and the external ArUco detector are
modelled as explicit inputs to each per-tick transition function, and
each transition function additionally emits the trace of blocking
reads / detector invocations it performs, in source order.
-/

open Matrix

namespace RS_D_T

abbrev Vec3 := Fin 3 → ℝ
abbrev Vec4 := Fin 4 → ℝ
abbrev Mat3 := Matrix (Fin 3) (Fin 3) ℝ
abbrev Mat4 := Matrix (Fin 4) (Fin 4) ℝ

/-- A 6-DoF pose sample from the tracking camera: translation
`(tx, ty, tz)` and rotation quaternion `(qx, qy, qz, qw)`. -/
structure PoseSample where
  tx : ℝ
  ty : ℝ
  tz : ℝ
  qx : ℝ
  qy : ℝ
  qz : ℝ
  qw : ℝ

/-- `pose_frame_data`: builds the homogeneous translation vector
`[x, y, z, 1]` and the quaternion vector `[x, y, z, w]` from a pose
frame (source lines 205-211). -/
def pose_frame_data (p : PoseSample) : Vec4 × Vec4 :=
  (![p.tx, p.ty, p.tz, 1], ![p.qx, p.qy, p.qz, p.qw])

/-- Roll/pitch/yaw angles in degrees, in the order of the array
`[roll, pitch, yaw]` returned by `rvec_to_rpy`. -/
structure RPY where
  roll : ℝ
  pitch : ℝ
  yaw : ℝ

/-- Two-argument arctangent with the quadrant conventions of Python's
`math.atan2` (an external library function used by the source). -/
noncomputable def atan2 (y x : ℝ) : ℝ :=
  if 0 < x then Real.arctan (y / x)
  else if x < 0 then
    (if 0 ≤ y then Real.arctan (y / x) + Real.pi
     else Real.arctan (y / x) - Real.pi)
  else
    (if 0 < y then Real.pi / 2
     else if y < 0 then -(Real.pi / 2)
     else 0)

/-- `rvec_to_rpy`: quaternion `[x, y, z, w]` to roll/pitch/yaw in
degrees (source lines 216-221). -/
noncomputable def rvec_to_rpy (r : Vec4) : RPY :=
  { pitch := -Real.arcsin (2.0 * (r 0 * r 2 - r 3 * r 1)) * 180.0 / Real.pi
    roll := atan2 (2.0 * (r 3 * r 0 + r 1 * r 2))
        (r 3 * r 3 - r 0 * r 0 - r 1 * r 1 + r 2 * r 2) * 180.0 / Real.pi
    yaw := atan2 (2.0 * (r 3 * r 2 + r 0 * r 1))
        (r 3 * r 3 + r 0 * r 0 - r 1 * r 1 - r 2 * r 2) * 180.0 / Real.pi }

/-- The attitude gate condition `max(rpy[0], rpy[2]) > self.calibrate_thres`
(source lines 92 and 121), i.e. `max(roll, yaw) > threshold`.  Stated
over any linear order so that it can be evaluated on rational test
angles and reasoned about on the real angles of the tick model. -/
def attitudeGateFails {α : Type} [LinearOrder α] (roll yaw thres : α) : Bool :=
  decide (max roll yaw > thres)

/-- The constant `base_c2c` matrix of `cam2cam` (source lines 246-249):
`np.array([1,0,0,0, 0,-1,0,0, 0,0,-1,0, 0,0,0,1]).reshape((4,4))`. -/
def base_c2c : Mat4 :=
  Matrix.of ![![1, 0, 0, 0], ![0, -1, 0, 0], ![0, 0, -1, 0], ![0, 0, 0, 1]]

/-- The cross-product matrix of a 3-vector, used by the Rodrigues
formula. -/
def crossMat (k : Vec3) : Mat3 :=
  Matrix.of ![![0, -(k 2), k 1], ![k 2, 0, -(k 0)], ![-(k 1), k 0, 0]]

/-- Modelled from the spec: `cv2.Rodrigues` is an external library
function; the spec (4.2) describes it as the standard Rodrigues formula
turning an axis-angle rotation vector into a 3x3 rotation matrix. -/
noncomputable def rodrigues (r : Vec3) : Mat3 :=
  if r = 0 then 1
  else
    Matrix.of fun i j =>
      let θ := Real.sqrt (r 0 ^ 2 + r 1 ^ 2 + r 2 ^ 2)
      let k : Vec3 := fun l => r l / θ
      Real.cos θ * (if i = j then 1 else 0)
        + Real.sin θ * crossMat k i j
        + (1 - Real.cos θ) * (k i * k j)

/-- The 4x4 homogeneous matrix built inside `cam2marker` (source lines
231-233): identity, then `[:3,:3] = R` and `[:3,3] = t`. -/
def homog (R : Mat3) (t : Vec3) : Mat4 :=
  Matrix.of fun i j =>
    if hi : (i : ℕ) < 3 then
      if hj : (j : ℕ) < 3 then R ⟨i, hi⟩ ⟨j, hj⟩ else t ⟨i, hi⟩
    else if (j : ℕ) = 3 then 1 else 0

/-- `cam2marker` (source lines 229-235): build the homogeneous
transform from the marker's Rodrigues rotation vector and translation
vector, then invert it. -/
noncomputable def cam2marker (rvec tvec : Vec3) : Mat4 :=
  (homog (rodrigues rvec) tvec)⁻¹

/-- `cam2cam` (source lines 245-258): the fixed `base_c2c` flip when
`use_default_cam2cam` is set; otherwise the experimental path building
a matrix with rows 0-2 holding `Rodrigues(t_rvec[:3])` (last column 0)
and row 3 holding `t_tvec`, inverting it and composing with
`base_c2c`. -/
noncomputable def cam2cam (use_default : Bool) (t_rvec t_tvec : Vec4) : Mat4 :=
  if use_default then base_c2c
  else
    let M : Mat4 := Matrix.of fun i j =>
      if hi : (i : ℕ) < 3 then
        if hj : (j : ℕ) < 3 then
          rodrigues (fun l => t_rvec (Fin.castLE (by norm_num) l)) ⟨i, hi⟩ ⟨j, hj⟩
        else 0
      else t_tvec j
    M⁻¹ * base_c2c

/-- The output of the external ArUco detector for one image, as
consumed by `get_trans_mat`: `aruco.detectMarkers` yields `ids = None`
when no marker is in sight and a list of integer ids otherwise, and
`aruco.estimatePoseSingleMarkers` yields one rotation vector and one
translation vector per detected marker. -/
structure DetectOutput where
  ids : Option (List ℤ)
  rvecs : List Vec3
  tvecs : List Vec3

/-- Python truthiness of the numpy id array in `if ids:` (source line
262): `None` never reaches this; a 1-element array is truthy exactly
when its entry is nonzero; an array of two or more elements raises
`ValueError` (ambiguous truth value), modelled as `Except.error`. -/
def arrayTruthy (l : List ℤ) : Except Unit Bool :=
  match l with
  | [] => Except.ok false
  | [i] => Except.ok (decide (i ≠ 0))
  | _ :: _ :: _ => Except.error ()

/-- `get_trans_mat` (source lines 260-272): run the detector, and when
the id array is truthy feed the (single-marker) rvec/tvec arrays to
`cam2marker`, returning `(d2m, tvec, rvec)`; when `ids` is `None` or
falsy, return the `None` triple (`Except.ok none`); the ambiguous
truthiness of a multi-marker id array propagates as a raised
`ValueError` (`Except.error`). -/
noncomputable def get_trans_mat (d : DetectOutput) :
    Except Unit (Option (Mat4 × Vec3 × Vec3)) :=
  match d.ids with
  | none => Except.ok none
  | some l =>
    match arrayTruthy l with
    | Except.error e => Except.error e
    | Except.ok false => Except.ok none
    | Except.ok true =>
      Except.ok (some (cam2marker d.rvecs.headI d.tvecs.headI,
        d.tvecs.headI, d.rvecs.headI))

/-- The mutable state of an `RS_D_T` object that the calibration state
machine and `poll` read or write. -/
structure CamState where
  calibrated : Bool
  d2m : Option Mat4
  t2d : Option Mat4
  t2m : Option Mat4
  use_default_cam2cam : Bool
  calibrate_thres : ℝ
  detect_mode : Bool
  location : Vec3

/-- The state after `__init__` with the `CAM_CONFIG` defaults (source
lines 41, 53, 64-68): uncalibrated, no transforms, default rig
transform enabled, threshold 1 degree, detection overlay off,
location `[0, 0, 0]`. -/
def initState : CamState :=
  { calibrated := false
    d2m := none
    t2d := none
    t2m := none
    use_default_cam2cam := true
    calibrate_thres := 1
    detect_mode := false
    location := fun _ => 0 }

/-- Blocking reads and detector invocations, recorded in the order the
source performs them. -/
inductive Event where
  | readTracker
  | readCamera
  | detectMarkers
deriving DecidableEq

/-- The sensor inputs consumed by one calibration tick. -/
structure TickInput where
  pose : PoseSample
  det : DetectOutput

/-- First three components of a homogeneous 4-vector (`v[:3]`). -/
def truncate3 (v : Vec4) : Vec3 :=
  fun i => v (Fin.castLE (by norm_num) i)

/-- One iteration of the `while not self.calibrated` body of
`calibrate` (source lines 79-134), as the per-tick transition function
of the calibration state machine.  When the state is already
`Calibrated` the loop guard skips the body, so the tick is a no-op.
Inside the body: tracker frame read, then camera frame read; the
attitude gate is `max(rpy[0], rpy[2]) > self.calibrate_thres`.  With
`show_img` set (GUI branch, lines 91-117) the detector runs every
tick and the transforms are stored when neither flag is set; without
it (lines 118-134) a failing attitude gate `continue`s before any
detector call.  An uncaught detector `ValueError` propagates. -/
noncomputable def calibrateTick (s : CamState) (show_img : Bool) (inp : TickInput) :
    List Event × Except Unit CamState :=
  if s.calibrated then ([], Except.ok s)
  else
    let tdata := pose_frame_data inp.pose
    let rpy := rvec_to_rpy tdata.2
    let t_flag := attitudeGateFails rpy.roll rpy.yaw s.calibrate_thres
    let stored : CamState :=
      { s with
        d2m := some (cam2marker inp.det.rvecs.headI inp.det.tvecs.headI)
        t2d := some (cam2cam s.use_default_cam2cam tdata.2 tdata.1)
        t2m := some (cam2marker inp.det.rvecs.headI inp.det.tvecs.headI *
          cam2cam s.use_default_cam2cam tdata.2 tdata.1)
        calibrated := true }
    if show_img then
      match get_trans_mat inp.det with
      | Except.error e =>
        ([Event.readTracker, Event.readCamera, Event.detectMarkers], Except.error e)
      | Except.ok none =>
        ([Event.readTracker, Event.readCamera, Event.detectMarkers], Except.ok s)
      | Except.ok (some _) =>
        if t_flag then
          ([Event.readTracker, Event.readCamera, Event.detectMarkers], Except.ok s)
        else
          ([Event.readTracker, Event.readCamera, Event.detectMarkers], Except.ok stored)
    else
      if t_flag then ([Event.readTracker, Event.readCamera], Except.ok s)
      else
        match get_trans_mat inp.det with
        | Except.error e =>
          ([Event.readTracker, Event.readCamera, Event.detectMarkers], Except.error e)
        | Except.ok none =>
          ([Event.readTracker, Event.readCamera, Event.detectMarkers], Except.ok s)
        | Except.ok (some _) =>
          ([Event.readTracker, Event.readCamera, Event.detectMarkers], Except.ok stored)

/-- The value returned (or the process exit performed) by one `poll`
call: a world location, the `np.nan` sentinel, or the `sys.exit(0)`
triggered by the quit key in GUI mode (`SystemExit` is not an
`Exception`, so the `except` clause does not catch it). -/
inductive PollResult where
  | loc (v : Vec3)
  | nan
  | exited

/-- Keyboard input observed by `cv2.waitKey` during a GUI `poll` tick. -/
inductive Key where
  | q
  | esc
  | d
  | other
deriving DecidableEq

/-- The external inputs consumed by one `poll` call: whether the
camera read succeeds, the tracker read result (`none` models a raised
read error), the detector output for the optional overlay, and the
pressed key. -/
structure PollInput where
  frameDOk : Bool
  frameT : Option PoseSample
  det : DetectOutput
  key : Key

/-- Keyboard handling at the end of a GUI `poll` tick (source lines
188-194): `q` or `ESC` exits the process, `d` toggles `detect_mode`
and the location is returned, anything else just returns the
location. -/
def pollKeys (s1 : CamState) (evs : List Event) (k : Key) :
    List Event × CamState × PollResult :=
  match k with
  | Key.q => (evs, s1, PollResult.exited)
  | Key.esc => (evs, s1, PollResult.exited)
  | Key.d => (evs, { s1 with detect_mode := !s1.detect_mode }, PollResult.loc s1.location)
  | Key.other => (evs, s1, PollResult.loc s1.location)

/-- `poll` (source lines 158-200).  Uncalibrated: log an error and
return `np.nan` without touching the sensors.  Otherwise, inside a
`try`: camera frame read first, then tracker frame read (lines
164-165); any raised read error is caught and yields `np.nan`.  The
location `(self.t2m @ t_tvec)[:3]` is stored and returned; `t2m`
being `None` would raise and be caught, yielding `np.nan`.  In GUI
mode with `detect_mode` on, the detector runs and a raised
`ValueError` is caught, yielding `np.nan`; then keys are handled. -/
noncomputable def poll (s : CamState) (show_gui : Bool) (inp : PollInput) :
    List Event × CamState × PollResult :=
  if s.calibrated then
    if inp.frameDOk then
      match inp.frameT with
      | none => ([Event.readCamera, Event.readTracker], s, PollResult.nan)
      | some p =>
        match s.t2m with
        | none => ([Event.readCamera, Event.readTracker], s, PollResult.nan)
        | some M =>
          let s1 := { s with location := truncate3 (M.mulVec (pose_frame_data p).1) }
          if show_gui then
            if s.detect_mode then
              match get_trans_mat inp.det with
              | Except.error _ =>
                ([Event.readCamera, Event.readTracker, Event.detectMarkers], s1,
                  PollResult.nan)
              | Except.ok _ =>
                pollKeys s1 [Event.readCamera, Event.readTracker, Event.detectMarkers]
                  inp.key
            else pollKeys s1 [Event.readCamera, Event.readTracker] inp.key
          else
            ([Event.readCamera, Event.readTracker], s1, PollResult.loc s1.location)
    else ([Event.readCamera], s, PollResult.nan)
  else ([], s, PollResult.nan)

/-- The state-machine invariant of the calibration engine: whenever
the state is `Calibrated`, the three fixed transforms are all set. -/
def CalInv (s : CamState) : Prop :=
  s.calibrated = true → s.d2m.isSome ∧ s.t2d.isSome ∧ s.t2m.isSome

/-- A tracker pose at the origin with the identity quaternion. -/
def demoPose : PoseSample := ⟨0, 0, 0, 0, 0, 0, 1⟩

/-- A detector report of exactly one marker, id 7, at the camera
origin with zero rotation vector. -/
def demoDet : DetectOutput := ⟨some [7], [0], [0]⟩

/-- A calibration tick input: identity tracker pose, one marker. -/
def demoTickInput : TickInput := ⟨demoPose, demoDet⟩

/-- A calibrated state with all three transforms set. -/
def calibratedState : CamState :=
  { calibrated := true
    d2m := some base_c2c
    t2d := some base_c2c
    t2m := some base_c2c
    use_default_cam2cam := true
    calibrate_thres := 1
    detect_mode := false
    location := fun _ => 0 }

/-- The initial state with the attitude threshold lowered to -1
degree, so that the identity pose (roll = yaw = 0) fails the gate. -/
def gateFailState : CamState :=
  { initState with calibrate_thres := -1 }

/-- A poll input with both reads succeeding and no key pressed. -/
def okPollInput : PollInput := ⟨true, some demoPose, ⟨none, [], []⟩, Key.other⟩

/-- A poll input with both reads succeeding and the quit key pressed. -/
def quitPollInput : PollInput := ⟨true, some demoPose, ⟨none, [], []⟩, Key.q⟩

/-- `start_detect` (source lines 148-149). -/
def start_detect (s : CamState) : CamState :=
  { s with detect_mode := true }

/-- `stop_detect` (source lines 151-152). -/
def stop_detect (s : CamState) : CamState :=
  { s with detect_mode := false }

end RS_D_T

namespace ViveTrackerServer

/-- One device of the external OpenVR registry, exposing
`get_pose_euler()` as `(x, y, z, yaw, pitch, roll)` and
`get_velocity()` as `(vel_x, vel_y, vel_z)`.  The numeric samples are
modelled as rationals so that concrete instances evaluate. -/
structure TrackerDevice where
  x : ℚ
  y : ℚ
  z : ℚ
  yaw : ℚ
  pitch : ℚ
  roll : ℚ
  vel_x : ℚ
  vel_y : ℚ
  vel_z : ℚ

/-- Modelled from the spec: `ViveTrackerMessage` lives in `models.py`,
which is not under `src/`; the spec (6) gives its fields as
`{valid, x, y, z, yaw, pitch, roll, vel_x, vel_y, vel_z, device_name}`. -/
structure ViveTrackerMessage where
  valid : Bool
  x : ℚ
  y : ℚ
  z : ℚ
  yaw : ℚ
  pitch : ℚ
  roll : ℚ
  vel_x : ℚ
  vel_y : ℚ
  vel_z : ℚ
  device_name : String
deriving DecidableEq

/-- A JSON scalar value appearing in the tracker message document. -/
inductive JVal where
  | jb (b : Bool)
  | jq (q : ℚ)
  | js (s : String)
deriving DecidableEq

/-- Modelled from the spec: the JSON document serialized from a
`ViveTrackerMessage` (the `json.dumps(data.json(), ...)` result),
kept symbolic as its ordered field list since `models.py` is not
under `src/`; the spec (6) fixes the fields and their order. -/
def messageJson (m : ViveTrackerMessage) : List (String × JVal) :=
  [("valid", JVal.jb m.valid), ("x", JVal.jq m.x), ("y", JVal.jq m.y),
   ("z", JVal.jq m.z), ("yaw", JVal.jq m.yaw), ("pitch", JVal.jq m.pitch),
   ("roll", JVal.jq m.roll), ("vel_x", JVal.jq m.vel_x),
   ("vel_y", JVal.jq m.vel_y), ("vel_z", JVal.jq m.vel_z),
   ("device_name", JVal.js m.device_name)]

/-- A datagram sent back to the client: the serialized JSON document
paired with the terminator appended after it. -/
structure Response where
  doc : List (String × JVal)
  terminator : String
deriving DecidableEq

/-- `get_tracker` (source lines 19-21): `triad_openvr.devices.get(name,
None)`, with the external device registry passed explicitly. -/
def get_tracker (devices : String → Option TrackerDevice) (tracker_name : String) :
    Option TrackerDevice :=
  devices tracker_name

/-- `create_tracker_message` (source lines 23-33): unpack the device's
euler pose and velocity into a `ViveTrackerMessage` with
`valid = True`. -/
def create_tracker_message (tracker : TrackerDevice) (tracker_name : String) :
    ViveTrackerMessage :=
  { valid := true
    x := tracker.x
    y := tracker.y
    z := tracker.z
    yaw := tracker.yaw
    pitch := tracker.pitch
    roll := tracker.roll
    vel_x := tracker.vel_x
    vel_y := tracker.vel_y
    vel_z := tracker.vel_z
    device_name := tracker_name }

/-- `construct_json_message` (source lines 35-39): serialize the
message and append `";"`. -/
def construct_json_message (data : ViveTrackerMessage) : Response :=
  { doc := messageJson data, terminator := ";" }

/-- `poll` (source lines 11-17): look the device up; build a message
when found, `None` otherwise. -/
def poll (devices : String → Option TrackerDevice) (tracker_name : String) :
    Option ViveTrackerMessage :=
  match get_tracker devices tracker_name with
  | some tracker => some (create_tracker_message tracker tracker_name)
  | none => none

/-- `handle` (source lines 46-53): decode the requested device name,
poll the registry, and send exactly one serialized response when a
message was built, none otherwise.  The returned list is the sequence
of datagrams sent via `socket.sendto`. -/
def handle (devices : String → Option TrackerDevice) (tracker_name : String) :
    List Response :=
  match poll devices tracker_name with
  | some message => [construct_json_message message]
  | none => []

/-- A device registered under the name `tracker_1`, at rest at the
origin. -/
def demoDevice : TrackerDevice := ⟨0, 0, 0, 0, 0, 0, 0, 0, 0⟩

/-- A registry holding exactly the device `tracker_1`. -/
def demoRegistry : String → Option TrackerDevice :=
  fun n => if n = "tracker_1" then some demoDevice else none

end ViveTrackerServer

open RS_D_T

/-- The attitude gate as a proposition: it fails exactly on
`max roll yaw > thres`. -/
lemma attitudeGateFails_true_iff {α : Type} [LinearOrder α] (roll yaw thres : α) :
    attitudeGateFails roll yaw thres = true ↔ max roll yaw > thres := by
  simp [attitudeGateFails]

/-- The attitude gate passes exactly on `max roll yaw ≤ thres`. -/
lemma attitudeGateFails_false_iff {α : Type} [LinearOrder α] (roll yaw thres : α) :
    attitudeGateFails roll yaw thres = false ↔ max roll yaw ≤ thres := by
  simp [attitudeGateFails]

/-- The identity quaternion converts to zero roll, pitch and yaw. -/
lemma rpy_identity : rvec_to_rpy ![0, 0, 0, 1] = ⟨0, 0, 0⟩ := by
  simp [rvec_to_rpy, atan2]

/-- The identity-pose tick passes the attitude gate at the default
1-degree threshold. -/
lemma demo_gate_passes :
    attitudeGateFails (rvec_to_rpy (pose_frame_data demoPose).2).roll
      (rvec_to_rpy (pose_frame_data demoPose).2).yaw initState.calibrate_thres = false := by
  have h : (pose_frame_data demoPose).2 = ![(0 : ℝ), 0, 0, 1] := rfl
  rw [h, rpy_identity, attitudeGateFails_false_iff]
  show max (0 : ℝ) 0 ≤ initState.calibrate_thres
  norm_num [initState]

/-- The identity-pose tick fails the attitude gate at threshold -1. -/
lemma demo_gate_fails :
    attitudeGateFails (rvec_to_rpy (pose_frame_data demoPose).2).roll
      (rvec_to_rpy (pose_frame_data demoPose).2).yaw gateFailState.calibrate_thres = true := by
  have h : (pose_frame_data demoPose).2 = ![(0 : ℝ), 0, 0, 1] := rfl
  rw [h, rpy_identity, attitudeGateFails_true_iff]
  show max (0 : ℝ) 0 > gateFailState.calibrate_thres
  norm_num [gateFailState, initState]

/-- C2: the attitude gate fails exactly when `max(roll, yaw)` exceeds
the threshold; the default threshold is 1 degree; with threshold 1,
roll = 0.5 and yaw = 0.5 pass the gate, and roll = 1.5 with yaw = 0
fails it. -/
theorem attitude_gate_characterization :
    (∀ roll yaw thres : ℝ, attitudeGateFails roll yaw thres = true ↔ max roll yaw > thres)
    ∧ initState.calibrate_thres = 1
    ∧ attitudeGateFails ((1 : ℚ) / 2) ((1 : ℚ) / 2) 1 = false
    ∧ attitudeGateFails ((3 : ℚ) / 2) 0 1 = true := by
  refine ⟨fun roll yaw thres => attitudeGateFails_true_iff roll yaw thres, rfl, ?_, ?_⟩
  · rw [attitudeGateFails_false_iff]; norm_num
  · rw [attitudeGateFails_true_iff]; norm_num

/-- C8: `get_trans_mat` at the failing inputs: a single detected
marker with id 0 is treated as "not detected" (the `None` triple),
and two or more detected markers raise `ValueError`, because
`if ids:` takes numpy array truthiness; a single marker with nonzero
id is consumed as the first marker's pose, and no markers yield the
`None` triple. -/
theorem get_trans_mat_numpy_truthiness :
    get_trans_mat ⟨some [0], [0], [0]⟩ = Except.ok none
    ∧ get_trans_mat ⟨some [1, 2], [0, 0], [0, 0]⟩ = Except.error ()
    ∧ get_trans_mat ⟨some [7], [0], [0]⟩ =
        Except.ok (some (cam2marker 0 0, 0, 0))
    ∧ get_trans_mat ⟨none, [], []⟩ = Except.ok none :=
  ⟨rfl, rfl, rfl, rfl⟩

open ViveTrackerServer in
/-- C10: a datagram request for a registered device name is answered
with exactly one response, the JSON document with fields valid, x, y,
z, yaw, pitch, roll, vel_x, vel_y, vel_z, device_name terminated by a
semicolon; an absent or unknown device name gets no response. -/
theorem handle_response_spec :
    ∀ (devices : String → Option TrackerDevice) (name : String),
      (∀ t, devices name = some t →
        ViveTrackerServer.handle devices name =
          [{ doc := [("valid", JVal.jb true), ("x", JVal.jq t.x), ("y", JVal.jq t.y),
              ("z", JVal.jq t.z), ("yaw", JVal.jq t.yaw), ("pitch", JVal.jq t.pitch),
              ("roll", JVal.jq t.roll), ("vel_x", JVal.jq t.vel_x),
              ("vel_y", JVal.jq t.vel_y), ("vel_z", JVal.jq t.vel_z),
              ("device_name", JVal.js name)], terminator := ";" }])
      ∧ (devices name = none → ViveTrackerServer.handle devices name = []) := by
  intro devices name
  constructor
  · intro t h
    simp [ViveTrackerServer.handle, ViveTrackerServer.poll, ViveTrackerServer.get_tracker,
      h, ViveTrackerServer.create_tracker_message, ViveTrackerServer.construct_json_message,
      ViveTrackerServer.messageJson]
  · intro h
    simp [ViveTrackerServer.handle, ViveTrackerServer.poll, ViveTrackerServer.get_tracker, h]

open ViveTrackerServer in
/-- Witness for C10 at a concrete registry: the name `tracker_1` is
answered with the one semicolon-terminated document, an unknown name
gets nothing. -/
theorem handle_response_spec_witness :
    ViveTrackerServer.handle demoRegistry "tracker_1" =
      [{ doc := [("valid", JVal.jb true), ("x", JVal.jq demoDevice.x),
          ("y", JVal.jq demoDevice.y), ("z", JVal.jq demoDevice.z),
          ("yaw", JVal.jq demoDevice.yaw), ("pitch", JVal.jq demoDevice.pitch),
          ("roll", JVal.jq demoDevice.roll), ("vel_x", JVal.jq demoDevice.vel_x),
          ("vel_y", JVal.jq demoDevice.vel_y), ("vel_z", JVal.jq demoDevice.vel_z),
          ("device_name", JVal.js "tracker_1")], terminator := ";" }]
    ∧ ViveTrackerServer.handle demoRegistry "unknown_name" = [] :=
  ⟨(handle_response_spec demoRegistry "tracker_1").1 demoDevice (by simp [demoRegistry]),
   (handle_response_spec demoRegistry "unknown_name").2 (by simp [demoRegistry])⟩

/-- C5: the quaternion-to-Euler conversion computes exactly the spec's
formulas, pitch = -asin(2(xz - wy))·180/π, roll = atan2(2(wx + yz),
w² - x² - y² + z²)·180/π, yaw = atan2(2(wz + xy), w² + x² - y² - z²)·180/π,
and the identity quaternion (0,0,0,1) yields (0, 0, 0). -/
theorem rvec_to_rpy_formulas :
    (∀ x y z w : ℝ, rvec_to_rpy ![x, y, z, w] =
      { roll := atan2 (2 * (w * x + y * z)) (w ^ 2 - x ^ 2 - y ^ 2 + z ^ 2) * 180 / Real.pi
        pitch := -Real.arcsin (2 * (x * z - w * y)) * 180 / Real.pi
        yaw := atan2 (2 * (w * z + x * y)) (w ^ 2 + x ^ 2 - y ^ 2 - z ^ 2) * 180 / Real.pi })
    ∧ rvec_to_rpy ![0, 0, 0, 1] = ⟨0, 0, 0⟩ := by
  refine ⟨fun x y z w => ?_, rpy_identity⟩
  simp only [rvec_to_rpy, Matrix.cons_val_zero, Matrix.cons_val_one, Matrix.head_cons,
    Matrix.cons_val_two, Matrix.tail_cons, Matrix.cons_val_three, Matrix.head_fin_const,
    RPY.mk.injEq]
  ring_nf
  refine ⟨?_, ?_, ?_⟩ <;> ring_nf

/-- A detector report of exactly one marker with nonzero id is
consumed as that marker's pose. -/
lemma get_trans_mat_single (d : DetectOutput) (i : ℤ) (hids : d.ids = some [i])
    (hi : i ≠ 0) :
    get_trans_mat d = Except.ok (some (cam2marker d.rvecs.headI d.tvecs.headI,
      d.tvecs.headI, d.rvecs.headI)) := by
  unfold get_trans_mat
  rw [hids]
  simp [arrayTruthy, hi]

/-- C1: a calibration tick in which both gates pass with
`use_default_cam2cam` set stores `cameraToMarker` (`d2m`) as the
matrix inverse of the homogeneous transform built from the marker's
Rodrigues rotation vector and translation vector, `trackerToCamera`
(`t2d`) as the constant `diag(1,-1,-1,1)`, and `trackerToWorld`
(`t2m`) as their product `cameraToMarker * diag(1,-1,-1,1)`, and the
state becomes Calibrated. -/
theorem calibrate_success_stores (s : CamState) (show_img : Bool) (inp : TickInput)
    (i : ℤ)
    (hcal : s.calibrated = false)
    (hdef : s.use_default_cam2cam = true)
    (hids : inp.det.ids = some [i]) (hi : i ≠ 0)
    (hgate : attitudeGateFails (rvec_to_rpy (pose_frame_data inp.pose).2).roll
      (rvec_to_rpy (pose_frame_data inp.pose).2).yaw s.calibrate_thres = false) :
    base_c2c = Matrix.diagonal ![1, -1, -1, 1]
    ∧ ∃ s', (calibrateTick s show_img inp).2 = Except.ok s'
      ∧ s'.calibrated = true
      ∧ s'.d2m = some ((homog (rodrigues inp.det.rvecs.headI) inp.det.tvecs.headI)⁻¹)
      ∧ s'.t2d = some base_c2c
      ∧ s'.t2m = some ((homog (rodrigues inp.det.rvecs.headI) inp.det.tvecs.headI)⁻¹
          * base_c2c) := by
  have hdiag : base_c2c = Matrix.diagonal ![1, -1, -1, 1] := by
    ext a b
    fin_cases a <;> fin_cases b <;>
      simp [base_c2c, Matrix.diagonal, Matrix.vecHead, Matrix.vecTail]
  have htm := get_trans_mat_single inp.det i hids hi
  refine ⟨hdiag, ?_⟩
  cases show_img <;>
    simp [calibrateTick, hcal, hgate, htm, hdef, cam2marker, cam2cam]

/-- Witness for C1 at the identity tracker pose and a single marker
with id 7 at the camera origin, from the initial (default-config)
state. -/
theorem calibrate_success_stores_witness :
    base_c2c = Matrix.diagonal ![1, -1, -1, 1]
    ∧ ∃ s', (calibrateTick initState false demoTickInput).2 = Except.ok s'
      ∧ s'.calibrated = true
      ∧ s'.d2m = some ((homog (rodrigues demoTickInput.det.rvecs.headI)
          demoTickInput.det.tvecs.headI)⁻¹)
      ∧ s'.t2d = some base_c2c
      ∧ s'.t2m = some ((homog (rodrigues demoTickInput.det.rvecs.headI)
          demoTickInput.det.tvecs.headI)⁻¹ * base_c2c) :=
  calibrate_success_stores initState false demoTickInput 7 rfl rfl rfl (by decide)
    demo_gate_passes

/-- C6 counterexample: in an interactive (`show_img = true`)
calibration tick whose attitude gate fails (identity pose against
threshold -1), the marker detector is still invoked: the tick's event
trace ends with a detector call. -/
theorem calibrate_gui_runs_detector_despite_gate :
    attitudeGateFails (rvec_to_rpy (pose_frame_data demoPose).2).roll
      (rvec_to_rpy (pose_frame_data demoPose).2).yaw gateFailState.calibrate_thres = true
    ∧ (calibrateTick gateFailState true demoTickInput).1 =
      [Event.readTracker, Event.readCamera, Event.detectMarkers] := by
  refine ⟨demo_gate_fails, ?_⟩
  have htm := get_trans_mat_single demoTickInput.det 7 rfl (by decide)
  have hg : attitudeGateFails
      (rvec_to_rpy (pose_frame_data demoTickInput.pose).2).roll
      (rvec_to_rpy (pose_frame_data demoTickInput.pose).2).yaw
      gateFailState.calibrate_thres = true := demo_gate_fails
  simp [calibrateTick, htm, hg, gateFailState, initState]
  split <;> rfl

/-- C6 amended: in every non-interactive (`show_img = false`)
calibration tick in which the attitude gate fails, marker detection
is not attempted and the tick leaves the state unchanged (logs and
retries). -/
theorem calibrate_gate_fail_skips_detection :
    ∀ (s : CamState) (inp : TickInput), s.calibrated = false →
      attitudeGateFails (rvec_to_rpy (pose_frame_data inp.pose).2).roll
        (rvec_to_rpy (pose_frame_data inp.pose).2).yaw s.calibrate_thres = true →
      calibrateTick s false inp =
        ([Event.readTracker, Event.readCamera], Except.ok s) := by
  intro s inp hcal hgate
  simp [calibrateTick, hcal, hgate]

/-- Witness for the amended C6: the identity pose against threshold -1
fails the gate and the non-interactive tick performs no detector
call. -/
theorem calibrate_gate_fail_skips_detection_witness :
    calibrateTick gateFailState false demoTickInput =
      ([Event.readTracker, Event.readCamera], Except.ok gateFailState) :=
  calibrate_gate_fail_skips_detection gateFailState demoTickInput rfl demo_gate_fails

/-- C9: the attitude gate compares signed values, not magnitudes: any
roll and yaw each at most the threshold pass the gate (arbitrarily
large negative values included); when the threshold is nonnegative, a
failing gate forces a positive tilt; and a passing gate in a
non-interactive calibration tick proceeds to marker detection. -/
theorem attitude_gate_signed :
    (∀ roll yaw thres : ℚ, roll ≤ thres → yaw ≤ thres →
      attitudeGateFails roll yaw thres = false)
    ∧ (∀ roll yaw thres : ℚ, 0 ≤ thres → attitudeGateFails roll yaw thres = true →
      0 < max roll yaw)
    ∧ (∀ (s : CamState) (inp : TickInput), s.calibrated = false →
      attitudeGateFails (rvec_to_rpy (pose_frame_data inp.pose).2).roll
        (rvec_to_rpy (pose_frame_data inp.pose).2).yaw s.calibrate_thres = false →
      Event.detectMarkers ∈ (calibrateTick s false inp).1) := by
  refine ⟨?_, ?_, ?_⟩
  · intro r y t h1 h2
    rw [attitudeGateFails_false_iff]
    exact max_le h1 h2
  · intro r y t h0 h
    rw [attitudeGateFails_true_iff] at h
    exact lt_of_le_of_lt h0 h
  · intro s inp hcal hgate
    simp only [calibrateTick, hcal, hgate, Bool.false_eq_true, if_false]
    split <;> simp

/-- Witness for C9: roll = -30 degrees with yaw = 0 passes the
1-degree gate, and the identity-pose tick from the initial state
reaches marker detection. -/
theorem attitude_gate_signed_witness :
    attitudeGateFails (-30 : ℚ) 0 1 = false
    ∧ Event.detectMarkers ∈ (calibrateTick initState false demoTickInput).1 :=
  ⟨attitude_gate_signed.1 (-30) 0 1 (by norm_num) (by norm_num),
   attitude_gate_signed.2.2 initState demoTickInput rfl demo_gate_passes⟩

/-- Keyboard handling does not change the event trace. -/
lemma pollKeys_fst (s1 : CamState) (evs : List Event) (k : Key) :
    (pollKeys s1 evs k).1 = evs := by
  cases k <;> rfl

/-- C7 counterexample: a steady-state `poll` call performs its two
blocking reads camera-first, not tracker-first. -/
theorem poll_reads_camera_before_tracker :
    (poll calibratedState false okPollInput).1 =
      [Event.readCamera, Event.readTracker] := rfl

/-- C7 amended: every calibration tick reads the tracker pose first
and the camera image second; every calibrated `poll` call whose two
reads are reached reads the camera image first and the tracker pose
second; in both, the two reads precede the computation on the pair. -/
theorem tick_read_order :
    (∀ (s : CamState) (g : Bool) (inp : TickInput), s.calibrated = false →
      (calibrateTick s g inp).1.take 2 = [Event.readTracker, Event.readCamera])
    ∧ (∀ (s : CamState) (g : Bool) (inp : PollInput) (p : PoseSample),
      s.calibrated = true → inp.frameDOk = true → inp.frameT = some p →
      (poll s g inp).1.take 2 = [Event.readCamera, Event.readTracker]) := by
  constructor
  · intro s g inp hcal
    simp only [calibrateTick, hcal, Bool.false_eq_true, if_false]
    cases g <;> simp only [Bool.false_eq_true, if_false, if_true] <;>
      split <;> (try split) <;> rfl
  · intro s g inp p hcal hd ht
    simp only [poll, hcal, hd, ht, if_true]
    cases hm : s.t2m <;> simp only []
    · rfl
    · cases g <;> simp only [Bool.false_eq_true, if_false, if_true]
      · rfl
      · by_cases hdm : s.detect_mode <;> simp only [hdm, if_true, Bool.false_eq_true, if_false]
        · cases hg : get_trans_mat inp.det <;> simp only [pollKeys_fst] <;> rfl
        · rw [pollKeys_fst]
          rfl

/-- Witness for the amended C7 at concrete states and inputs. -/
theorem tick_read_order_witness :
    (calibrateTick initState false demoTickInput).1.take 2 =
      [Event.readTracker, Event.readCamera]
    ∧ (poll calibratedState false okPollInput).1.take 2 =
      [Event.readCamera, Event.readTracker] :=
  ⟨tick_read_order.1 initState false demoTickInput rfl,
   tick_read_order.2 calibratedState false okPollInput demoPose rfl rfl rfl⟩

/-- Keyboard handling only ever toggles the detection overlay: the
calibration status and the three stored transforms are untouched. -/
lemma pollKeys_state (s1 : CamState) (evs : List Event) (k : Key) :
    ((pollKeys s1 evs k).2.1).calibrated = s1.calibrated
    ∧ ((pollKeys s1 evs k).2.1).d2m = s1.d2m
    ∧ ((pollKeys s1 evs k).2.1).t2d = s1.t2d
    ∧ ((pollKeys s1 evs k).2.1).t2m = s1.t2m := by
  cases k <;> exact ⟨rfl, rfl, rfl, rfl⟩

/-- `poll` only ever writes `location` and `detect_mode`: the
calibration status and the three stored transforms are untouched. -/
lemma poll_preserves (s : CamState) (g : Bool) (inp : PollInput) :
    ((poll s g inp).2.1).calibrated = s.calibrated
    ∧ ((poll s g inp).2.1).d2m = s.d2m
    ∧ ((poll s g inp).2.1).t2d = s.t2d
    ∧ ((poll s g inp).2.1).t2m = s.t2m := by
  unfold poll
  cases hc : s.calibrated with
  | false => exact ⟨hc, rfl, rfl, rfl⟩
  | true =>
    cases hd : inp.frameDOk with
    | false => exact ⟨hc, rfl, rfl, rfl⟩
    | true =>
      cases ht : inp.frameT with
      | none => exact ⟨hc, rfl, rfl, rfl⟩
      | some p =>
        cases hm : s.t2m with
        | none => exact ⟨hc, rfl, rfl, hm⟩
        | some M =>
          cases g with
          | false => exact ⟨rfl, rfl, rfl, rfl⟩
          | true =>
            cases hdm : s.detect_mode with
            | false => cases inp.key <;> exact ⟨rfl, rfl, rfl, rfl⟩
            | true =>
              cases hg : get_trans_mat inp.det with
              | error e => exact ⟨rfl, rfl, rfl, rfl⟩
              | ok o => cases inp.key <;> exact ⟨rfl, rfl, rfl, rfl⟩

/-- Every state a successful calibration tick returns is either the
input state unchanged or a state with all three transforms stored and
the calibrated flag set. -/
lemma calibrateTick_ok_cases (s : CamState) (g : Bool) (inp : TickInput) (s' : CamState)
    (hok : (calibrateTick s g inp).2 = Except.ok s') :
    s' = s ∨ (s'.calibrated = true ∧ s'.d2m.isSome = true
      ∧ s'.t2d.isSome = true ∧ s'.t2m.isSome = true) := by
  unfold calibrateTick at hok
  by_cases hc : s.calibrated = true
  · rw [if_pos hc] at hok
    left
    exact (Except.ok.inj hok).symm
  · rw [if_neg hc] at hok
    cases g
    · simp only [Bool.false_eq_true, if_false] at hok
      split at hok
      · left; exact (Except.ok.inj hok).symm
      · split at hok
        · simp at hok
        · left; exact (Except.ok.inj hok).symm
        · right
          rw [← Except.ok.inj hok]
          exact ⟨rfl, rfl, rfl, rfl⟩
    · simp only [if_true] at hok
      split at hok
      · simp at hok
      · left; exact (Except.ok.inj hok).symm
      · split at hok
        · left; exact (Except.ok.inj hok).symm
        · right
          rw [← Except.ok.inj hok]
          exact ⟨rfl, rfl, rfl, rfl⟩

/-- C4: the calibration state machine is one-way and idempotent: a
tick from a Calibrated state is a no-op returning the state unchanged
(transforms included), `poll` and the detect-mode toggles never change
the calibration status or the stored transforms, and the invariant
"Calibrated implies all of d2m, t2d, t2m are set" holds initially and
is preserved by every tick and every `poll`. -/
theorem calibration_one_way_idempotent :
    (∀ (s : CamState) (g : Bool) (inp : TickInput), s.calibrated = true →
      calibrateTick s g inp = ([], Except.ok s))
    ∧ (∀ (s : CamState) (g : Bool) (inp : PollInput),
      ((poll s g inp).2.1).calibrated = s.calibrated
      ∧ ((poll s g inp).2.1).d2m = s.d2m
      ∧ ((poll s g inp).2.1).t2d = s.t2d
      ∧ ((poll s g inp).2.1).t2m = s.t2m)
    ∧ CalInv initState
    ∧ (∀ (s : CamState) (g : Bool) (inp : TickInput) (s' : CamState),
      CalInv s → (calibrateTick s g inp).2 = Except.ok s' → CalInv s')
    ∧ (∀ (s : CamState) (g : Bool) (inp : PollInput),
      CalInv s → CalInv (poll s g inp).2.1)
    ∧ (∀ s : CamState, (start_detect s).calibrated = s.calibrated
      ∧ (start_detect s).t2m = s.t2m
      ∧ (stop_detect s).calibrated = s.calibrated
      ∧ (stop_detect s).t2m = s.t2m) := by
  refine ⟨?_, poll_preserves, ?_, ?_, ?_, ?_⟩
  · intro s g inp h
    simp [calibrateTick, h]
  · intro h
    simp [initState] at h
  · intro s g inp s' hinv hok
    intro hcal'
    rcases calibrateTick_ok_cases s g inp s' hok with he | hs
    · rw [he] at hcal' ⊢
      exact hinv hcal'
    · exact ⟨hs.2.1, hs.2.2.1, hs.2.2.2⟩
  · intro s g inp hinv hcal'
    obtain ⟨h1, h2, h3, h4⟩ := poll_preserves s g inp
    rw [h1] at hcal'
    obtain ⟨i1, i2, i3⟩ := hinv hcal'
    rw [h2, h3, h4]
    exact ⟨i1, i2, i3⟩
  · intro s
    exact ⟨rfl, rfl, rfl, rfl⟩

/-- Witness for C4: a tick from a concrete Calibrated state returns it
unchanged, and that state satisfies the all-transforms-set invariant. -/
theorem calibration_one_way_idempotent_witness :
    calibrateTick calibratedState false demoTickInput =
      ([], Except.ok calibratedState)
    ∧ ((poll calibratedState false okPollInput).2.1).t2m = calibratedState.t2m :=
  ⟨calibration_one_way_idempotent.1 calibratedState false demoTickInput rfl,
   (calibration_one_way_idempotent.2.1 calibratedState false okPollInput).2.2.2⟩

/-- C3 counterexample: a calibrated `poll` call with both reads
succeeding, the interactive display enabled and the quit key pressed
does not return the world location (nor the sentinel): it exits the
process (`sys.exit(0)` raises `SystemExit`, which the `except
Exception` clause does not catch). -/
theorem poll_quit_key_exits :
    (poll calibratedState true quitPollInput).2.2 = PollResult.exited := rfl

/-- C3 amended: `poll` returns the `np.nan` sentinel without raising
when the state is not Calibrated or any read or transform failure
occurs, and otherwise returns `(trackerToWorld @ [x, y, z, 1])[0:3]`
-- except that with the interactive display enabled and the quit key
(q or ESC) pressed it terminates the process instead of returning. -/
theorem poll_sentinel_and_location :
    ∀ (s : CamState) (g : Bool) (inp : PollInput),
      (s.calibrated = false → (poll s g inp).2.2 = PollResult.nan)
      ∧ (inp.frameDOk = false → (poll s g inp).2.2 = PollResult.nan)
      ∧ (inp.frameT = none → (poll s g inp).2.2 = PollResult.nan)
      ∧ (s.t2m = none → (poll s g inp).2.2 = PollResult.nan)
      ∧ (g = true → s.detect_mode = true → get_trans_mat inp.det = Except.error () →
          (poll s g inp).2.2 = PollResult.nan)
      ∧ (∀ (M : Mat4) (p : PoseSample), s.calibrated = true → inp.frameDOk = true →
          inp.frameT = some p → s.t2m = some M →
          (g = true → s.detect_mode = true → get_trans_mat inp.det ≠ Except.error ()) →
          (g = true → inp.key ≠ Key.q ∧ inp.key ≠ Key.esc) →
          (poll s g inp).2.2 =
            PollResult.loc (truncate3 (M.mulVec (pose_frame_data p).1))) := by
  intro s g inp
  refine ⟨?_, ?_, ?_, ?_, ?_, ?_⟩
  · intro h
    unfold poll
    rw [h]
    rfl
  · intro h
    unfold poll
    rw [h]
    cases hc : s.calibrated <;> rfl
  · intro h
    unfold poll
    rw [h]
    cases hc : s.calibrated <;> cases hd : inp.frameDOk <;> rfl
  · intro h
    unfold poll
    rw [h]
    cases hc : s.calibrated <;> cases hd : inp.frameDOk <;> cases ht : inp.frameT <;> rfl
  · intro hg hdm he
    subst hg
    unfold poll
    rw [hdm, he]
    cases hc : s.calibrated <;> cases hd : inp.frameDOk <;> cases ht : inp.frameT <;>
      (try cases hm : s.t2m) <;> rfl
  · intro M p hc hd ht hm hdet hkey
    unfold poll
    rw [hc, hd, ht, hm]
    cases g with
    | false => rfl
    | true =>
      cases hdm : s.detect_mode with
      | false =>
        cases hk : inp.key with
        | q => exact absurd hk (hkey rfl).1
        | esc => exact absurd hk (hkey rfl).2
        | d => rfl
        | other => rfl
      | true =>
        cases hg : get_trans_mat inp.det with
        | error e => exact absurd hg (hdet rfl hdm)
        | ok o =>
          cases hk : inp.key with
          | q => exact absurd hk (hkey rfl).1
          | esc => exact absurd hk (hkey rfl).2
          | d => rfl
          | other => rfl

/-- Witness for the amended C3: calibrated state, successful reads, no
interactive display; `poll` returns the truncated product of the
stored tracker-to-world transform with the homogeneous tracker
translation. -/
theorem poll_sentinel_and_location_witness :
    (poll calibratedState false okPollInput).2.2 =
      PollResult.loc (truncate3 (base_c2c.mulVec (pose_frame_data demoPose).1)) :=
  (poll_sentinel_and_location calibratedState false okPollInput).2.2.2.2.2 base_c2c
    demoPose rfl rfl rfl rfl (fun h => by cases h) (fun h => by cases h)
